import Mathlib

/-!
Verification of the sudapy CRS suggestion engine and terrain derivative
calculator. The definitions below are shallow embeddings of
`src/sudapy/crs/registry.py` (presets, `get_preset`, `suggest_utm_zone`)
and `src/sudapy/raster/ops.py` (`_compute_slope`, `_compute_hillshade`,
embedded here as `compute_slope` and `compute_hillshade`). Coordinates are
modelled as rationals, elevation grids as real-valued functions on indices
together with an explicit shape.
-/

/-- Embedding of the frozen `CRSPreset` dataclass of `registry.py`. -/
structure CRSPreset where
  epsg : ℤ
  name : String
  description : String
  region : String
deriving DecidableEq, Repr

/-- Embedding of the hard-coded `SUDAN_CRS_PRESETS` list of `registry.py`. -/
def SUDAN_CRS_PRESETS : List CRSPreset := [
  { epsg := 4326, name := "WGS 84",
    description := "Global geographic CRS (latitude / longitude)",
    region := "Global" },
  { epsg := 32634, name := "WGS 84 / UTM zone 34N",
    description := "UTM zone covering western Sudan (~18-24 E)",
    region := "Western Sudan" },
  { epsg := 32635, name := "WGS 84 / UTM zone 35N",
    description := "UTM zone covering central Sudan (~24-30 E)",
    region := "Central Sudan" },
  { epsg := 32636, name := "WGS 84 / UTM zone 36N",
    description := "UTM zone covering eastern Sudan (~30-36 E)",
    region := "Eastern Sudan" },
  { epsg := 32637, name := "WGS 84 / UTM zone 37N",
    description := "UTM zone covering far-eastern Sudan and Red Sea coast (~36-42 E)",
    region := "Red Sea / Far-Eastern Sudan" },
  { epsg := 20135, name := "Adindan / UTM zone 35N",
    description := "Legacy Adindan datum, UTM zone 35N",
    region := "Central Sudan (legacy surveys)" },
  { epsg := 20136, name := "Adindan / UTM zone 36N",
    description := "Legacy Adindan datum, UTM zone 36N",
    region := "Eastern Sudan (legacy surveys)" },
  { epsg := 20137, name := "Adindan / UTM zone 37N",
    description := "Legacy Adindan datum, UTM zone 37N",
    region := "Red Sea / Far-Eastern Sudan (legacy surveys)" }]

/-- The first-match linear scan performed by the `for` loop of `get_preset`. -/
def findPreset : List CRSPreset → ℤ → Option CRSPreset
  | [], _ => none
  | p :: rest, e => if p.epsg = e then some p else findPreset rest e

/-- Embedding of `get_preset` of `registry.py`: lookup a preset by EPSG code,
`none` when absent. -/
def get_preset (epsg : ℤ) : Option CRSPreset :=
  findPreset SUDAN_CRS_PRESETS epsg

/-- The two `ValueError` raises of `suggest_utm_zone`, carrying the offending
value as the Python f-string does. -/
inductive CRSQueryError where
  | lonOutOfRange (lon : ℚ)
  | latOutOfRange (lat : ℚ)
deriving DecidableEq, Repr

/-- The message string attached to each `ValueError` of `suggest_utm_zone`. -/
def CRSQueryError.message : CRSQueryError → String
  | .lonOutOfRange lon => "Longitude " ++ toString lon ++ " out of range [-180, 180]"
  | .latOutOfRange lat => "Latitude " ++ toString lat ++ " out of range [-90, 90]"

/-- Embedding of the suggestion dicts built by `suggest_utm_zone`
(keys `epsg`, `zone`, `hemisphere`, `name`, `datum`). -/
structure UTMSuggestion where
  epsg : ℤ
  zone : ℤ
  hemisphere : String
  name : String
  datum : String
deriving DecidableEq, Repr

/-- `zone_number = int(math.floor((lon + 180) / 6)) + 1` of `suggest_utm_zone`. -/
def zoneNumber (lon : ℚ) : ℤ := ((lon + 180) / 6).floor + 1

/-- `Rat.floor` agrees with the mathematical floor, so `zoneNumber` is the
floor-based zone formula of the spec. -/
theorem zoneNumber_eq_floor (lon : ℚ) : zoneNumber lon = ⌊(lon + 180) / 6⌋ + 1 := by
  rw [zoneNumber, Rat.floor_def', Rat.floor_def]

/-- `hemisphere = "N" if lat >= 0 else "S"` of `suggest_utm_zone`. -/
def hemisphereOf (lat : ℚ) : String := if lat ≥ 0 then "N" else "S"

/-- The primary (WGS 84) suggestion dict built by `suggest_utm_zone`. -/
def primarySuggestion (lon lat : ℚ) : UTMSuggestion :=
  { epsg := (if hemisphereOf lat = "N" then 32600 else 32700) + zoneNumber lon,
    zone := zoneNumber lon,
    hemisphere := hemisphereOf lat,
    name := "WGS 84 / UTM zone " ++ toString (zoneNumber lon) ++ hemisphereOf lat,
    datum := "WGS 84" }

/-- `adindan_map = \x7b35: 20135, 36: 20136, 37: 20137\x7d` of `suggest_utm_zone`,
as a partial lookup. -/
def adindanMap (z : ℤ) : Option ℤ :=
  if z = 35 then some 20135
  else if z = 36 then some 20136
  else if z = 37 then some 20137
  else none

/-- The legacy (Adindan) suggestion dict appended by `suggest_utm_zone`. -/
def adindanSuggestion (lon lat : ℚ) (legacy : ℤ) : UTMSuggestion :=
  { epsg := legacy,
    zone := zoneNumber lon,
    hemisphere := hemisphereOf lat,
    name := "Adindan / UTM zone " ++ toString (zoneNumber lon) ++ "N",
    datum := "Adindan" }

/-- Embedding of `suggest_utm_zone` of `registry.py`: range checks, primary
WGS 84 suggestion, optional legacy Adindan suggestion. -/
def suggest_utm_zone (lon lat : ℚ) : Except CRSQueryError (List UTMSuggestion) :=
  if ¬ (-180 ≤ lon ∧ lon ≤ 180) then .error (.lonOutOfRange lon)
  else if ¬ (-90 ≤ lat ∧ lat ≤ 90) then .error (.latOutOfRange lat)
  else
    match adindanMap (zoneNumber lon) with
    | some legacy =>
        if hemisphereOf lat = "N" then
          .ok [primarySuggestion lon lat, adindanSuggestion lon lat legacy]
        else
          .ok [primarySuggestion lon lat]
    | none => .ok [primarySuggestion lon lat]

/-- In-range queries reduce to one of the two result shapes of
`suggest_utm_zone`: primary plus legacy, or primary alone. -/
theorem suggest_eq_cases (lon lat : ℚ)
    (h1 : -180 ≤ lon ∧ lon ≤ 180) (h2 : -90 ≤ lat ∧ lat ≤ 90) :
    (∃ legacy, adindanMap (zoneNumber lon) = some legacy ∧ hemisphereOf lat = "N" ∧
      suggest_utm_zone lon lat =
        .ok [primarySuggestion lon lat, adindanSuggestion lon lat legacy]) ∨
    ((adindanMap (zoneNumber lon) = none ∨ hemisphereOf lat ≠ "N") ∧
      suggest_utm_zone lon lat = .ok [primarySuggestion lon lat]) := by
  rw [suggest_utm_zone, if_neg (not_not_intro h1), if_neg (not_not_intro h2)]
  cases h : adindanMap (zoneNumber lon) with
  | none => exact Or.inr ⟨Or.inl rfl, rfl⟩
  | some legacy =>
    by_cases hN : hemisphereOf lat = "N"
    · exact Or.inl ⟨legacy, rfl, hN, by simp [hN]⟩
    · exact Or.inr ⟨Or.inr hN, by simp [hN]⟩

/-- Lower bound on the zone formula: longitudes at least -180 give zone at
least 1. -/
theorem one_le_zoneNumber (lon : ℚ) (h : -180 ≤ lon) : 1 ≤ zoneNumber lon := by
  rw [zoneNumber_eq_floor]
  have h0 : (0:ℚ) ≤ (lon + 180) / 6 := by
    apply div_nonneg _ (by norm_num)
    linarith
  have := Int.floor_nonneg.mpr h0
  omega

/-- Upper bound on the zone formula: longitudes at most 180 give zone at
most 61. -/
theorem zoneNumber_le_61 (lon : ℚ) (h : lon ≤ 180) : zoneNumber lon ≤ 61 := by
  rw [zoneNumber_eq_floor]
  have h61 : ⌊(lon + 180) / 6⌋ < 61 := by
    rw [Int.floor_lt]
    push_cast
    rw [div_lt_iff₀ (by norm_num : (0:ℚ) < 6)]
    linarith
  omega

/-- Strict upper bound: longitudes strictly below 180 give zone at most 60. -/
theorem zoneNumber_le_60 (lon : ℚ) (h : lon < 180) : zoneNumber lon ≤ 60 := by
  rw [zoneNumber_eq_floor]
  have h60 : ⌊(lon + 180) / 6⌋ < 60 := by
    rw [Int.floor_lt]
    push_cast
    rw [div_lt_iff₀ (by norm_num : (0:ℚ) < 6)]
    linarith
  omega

/-- Concrete zone evaluation at the eastern edge of the valid range. -/
theorem zoneNumber_at_180 : zoneNumber 180 = 61 := by
  rw [zoneNumber_eq_floor]; norm_num

/-- Concrete zone evaluation at longitude 32.5. -/
theorem zoneNumber_at_32_5 : zoneNumber (65/2) = 36 := by
  rw [zoneNumber_eq_floor]; norm_num

/-- C1 (amended): for every longitude in [-180, 180] and latitude in
[-90, 90], `suggest_utm_zone` returns at least one suggestion, and the zone
field of every returned suggestion equals `floor((lon + 180) / 6) + 1`; that
zone lies in [1, 61], and is at most 60 whenever `lon < 180` (the value 61
occurs only at the boundary `lon = 180`). -/
theorem C1_zone_formula (lon lat : ℚ)
    (hlon : -180 ≤ lon ∧ lon ≤ 180) (hlat : -90 ≤ lat ∧ lat ≤ 90) :
    ∃ l, suggest_utm_zone lon lat = .ok l ∧ l ≠ [] ∧
      ∀ s ∈ l, s.zone = ⌊(lon + 180) / 6⌋ + 1 ∧ 1 ≤ s.zone ∧ s.zone ≤ 61 ∧
        (lon < 180 → s.zone ≤ 60) := by
  have hz1 := one_le_zoneNumber lon hlon.1
  have hz61 := zoneNumber_le_61 lon hlon.2
  have hzf := zoneNumber_eq_floor lon
  rcases suggest_eq_cases lon lat hlon hlat with ⟨legacy, hm, hN, heq⟩ | ⟨hc, heq⟩ <;>
    {
      refine ⟨_, heq, by simp, fun s hs => ?_⟩
      have hzone : s.zone = zoneNumber lon := by fin_cases hs <;> rfl
      refine ⟨hzone.trans hzf, ?_, ?_, fun hlt => ?_⟩
      · rw [hzone]; exact hz1
      · rw [hzone]; exact hz61
      · rw [hzone]; exact zoneNumber_le_60 lon hlt
    }

/-- C1 counterexample: at the in-range input `lon = 180`, `lat = 0` the
returned zone is 61, which is not in [1, 60] as the claim states. -/
theorem C1_counterexample :
    (suggest_utm_zone 180 0).map (List.map UTMSuggestion.zone) = .ok [61] ∧
    ¬ ((61:ℤ) ≤ 60) := by
  constructor
  · rw [suggest_utm_zone]
    norm_num [zoneNumber_at_180, adindanMap, hemisphereOf, primarySuggestion,
      Except.map]
  · decide

/-- C1 witness: the amended statement instantiated at `lon = 33`, `lat = 15`. -/
theorem C1_witness :
    (((-180:ℚ) ≤ 33 ∧ (33:ℚ) ≤ 180) ∧ ((-90:ℚ) ≤ 15 ∧ (15:ℚ) ≤ 90)) ∧
    (∃ l, suggest_utm_zone 33 15 = .ok l ∧ l ≠ [] ∧
      ∀ s ∈ l, s.zone = ⌊((33:ℚ) + 180) / 6⌋ + 1 ∧ 1 ≤ s.zone ∧ s.zone ≤ 61 ∧
        ((33:ℚ) < 180 → s.zone ≤ 60)) :=
  ⟨⟨⟨by norm_num, by norm_num⟩, ⟨by norm_num, by norm_num⟩⟩,
    C1_zone_formula 33 15 ⟨by norm_num, by norm_num⟩ ⟨by norm_num, by norm_num⟩⟩

/-- C3: for every in-range query the first suggestion returned by
`suggest_utm_zone` has hemisphere `"N"` when `lat ≥ 0` and `"S"` otherwise,
epsg `32600 + zone` in the north and `32700 + zone` in the south, and datum
`"WGS 84"`. -/
theorem C3_primary_suggestion (lon lat : ℚ)
    (hlon : -180 ≤ lon ∧ lon ≤ 180) (hlat : -90 ≤ lat ∧ lat ≤ 90) :
    ∃ s rest, suggest_utm_zone lon lat = .ok (s :: rest) ∧
      s.hemisphere = (if 0 ≤ lat then "N" else "S") ∧
      s.epsg = (if 0 ≤ lat then 32600 else 32700) + (⌊(lon + 180) / 6⌋ + 1) ∧
      s.datum = "WGS 84" := by
  have hzf := zoneNumber_eq_floor lon
  have hhem : hemisphereOf lat = (if 0 ≤ lat then "N" else "S") := by
    simp [hemisphereOf, ge_iff_le]
  have hbase : (if hemisphereOf lat = "N" then (32600:ℤ) else 32700) =
      (if 0 ≤ lat then (32600:ℤ) else 32700) := by
    by_cases h0 : 0 ≤ lat
    · simp [hemisphereOf, ge_iff_le, h0]
    · have hS : hemisphereOf lat = "S" := by simp [hemisphereOf, ge_iff_le, h0]
      rw [hS, if_neg (by decide : ¬ ("S":String) = "N"), if_neg h0]
  have hfields : (primarySuggestion lon lat).hemisphere = hemisphereOf lat ∧
      (primarySuggestion lon lat).epsg =
        (if hemisphereOf lat = "N" then (32600:ℤ) else 32700) + zoneNumber lon ∧
      (primarySuggestion lon lat).datum = "WGS 84" := ⟨rfl, rfl, rfl⟩
  rcases suggest_eq_cases lon lat hlon hlat with ⟨legacy, hm, hN, heq⟩ | ⟨hc, heq⟩ <;>
    exact ⟨primarySuggestion lon lat, _, heq,
      hfields.1.trans hhem,
      (hfields.2.1.trans (by rw [hbase, hzf])),
      hfields.2.2⟩

/-- C3 witness: the statement instantiated in the southern hemisphere at
`lon = 32.5`, `lat = -5`, where the primary epsg is 32736. -/
theorem C3_witness :
    (((-180:ℚ) ≤ 65/2 ∧ (65/2:ℚ) ≤ 180) ∧ ((-90:ℚ) ≤ -5 ∧ (-5:ℚ) ≤ 90)) ∧
    (∃ s rest, suggest_utm_zone (65/2) (-5) = .ok (s :: rest) ∧
      s.hemisphere = (if (0:ℚ) ≤ -5 then "N" else "S") ∧
      s.epsg = (if (0:ℚ) ≤ -5 then 32600 else 32700) + (⌊((65/2:ℚ) + 180) / 6⌋ + 1) ∧
      s.datum = "WGS 84") :=
  ⟨⟨⟨by norm_num, by norm_num⟩, ⟨by norm_num, by norm_num⟩⟩,
    C3_primary_suggestion (65/2) (-5) ⟨by norm_num, by norm_num⟩
      ⟨by norm_num, by norm_num⟩⟩

/-- C4: in range, `suggest_utm_zone` returns exactly two suggestions iff the
hemisphere is `"N"` and the zone is 35, 36 or 37; the second suggestion then
has epsg `20100 + zone` (i.e. 20135/20136/20137 respectively), the same zone
and hemisphere as the first, and datum `"Adindan"`; otherwise exactly one
suggestion is returned. The concrete query (32.5, 15.6) yields
(32636, zone 36, N, WGS 84) then (20136, Adindan). -/
theorem C4_adindan_legacy :
    (∀ lon lat : ℚ, -180 ≤ lon ∧ lon ≤ 180 → -90 ≤ lat ∧ lat ≤ 90 →
      ∃ l, suggest_utm_zone lon lat = .ok l ∧
        (l.length = 2 ↔ (hemisphereOf lat = "N" ∧
          (zoneNumber lon = 35 ∨ zoneNumber lon = 36 ∨ zoneNumber lon = 37))) ∧
        (l.length = 1 ∨ l.length = 2) ∧
        (∀ s1 s2, l = [s1, s2] →
          s1.datum = "WGS 84" ∧ s2.datum = "Adindan" ∧ s2.zone = s1.zone ∧
          s2.hemisphere = s1.hemisphere ∧ s2.epsg = 20100 + s2.zone)) ∧
    (suggest_utm_zone (65/2) (78/5)).map
        (List.map fun s => (s.epsg, s.zone, s.hemisphere, s.datum)) =
      .ok [(32636, 36, "N", "WGS 84"), (20136, 36, "N", "Adindan")] := by
  constructor
  · intro lon lat hlon hlat
    rcases suggest_eq_cases lon lat hlon hlat with ⟨legacy, hm, hN, heq⟩ | ⟨hc, heq⟩
    · have hzones : zoneNumber lon = 35 ∨ zoneNumber lon = 36 ∨ zoneNumber lon = 37 := by
        rw [adindanMap] at hm
        split_ifs at hm with h35 h36 h37
        · exact Or.inl h35
        · exact Or.inr (Or.inl h36)
        · exact Or.inr (Or.inr h37)
      have hleg : legacy = 20100 + zoneNumber lon := by
        rw [adindanMap] at hm
        split_ifs at hm with h35 h36 h37
        · rw [h35]; injection hm with h; rw [← h]; decide
        · rw [h36]; injection hm with h; rw [← h]; decide
        · rw [h37]; injection hm with h; rw [← h]; decide
      refine ⟨_, heq, ⟨fun _ => ⟨hN, hzones⟩, fun _ => rfl⟩, Or.inr rfl, ?_⟩
      intro s1 s2 hl
      have h1 : s1 = primarySuggestion lon lat := by
        have := congrArg (fun l => l.head?) hl
        simpa using this.symm
      have h2 : s2 = adindanSuggestion lon lat legacy := by
        have := congrArg (fun l => l.get? 1) hl
        simpa using this.symm
      subst h1
      subst h2
      exact ⟨rfl, rfl, rfl, rfl, hleg⟩
    · refine ⟨_, heq, ?_, Or.inl rfl, ?_⟩
      · constructor
        · intro h
          exact absurd h (by simp)
        · rintro ⟨hN, hz⟩
          exfalso
          rcases hc with hnone | hne
          · rcases hz with h | h | h <;> rw [h] at hnone <;> simp [adindanMap] at hnone
          · exact hne hN
      · intro s1 s2 hl
        exact absurd hl (by simp)
  · rw [suggest_utm_zone]
    norm_num [zoneNumber_at_32_5, adindanMap, hemisphereOf, primarySuggestion,
      adindanSuggestion, Except.map]

/-- C4 witness: the universal part instantiated at `lon = 25`, `lat = 10`,
which falls in zone 35 and produces the two-element result. -/
theorem C4_witness :
    (((-180:ℚ) ≤ 25 ∧ (25:ℚ) ≤ 180) ∧ ((-90:ℚ) ≤ 10 ∧ (10:ℚ) ≤ 90)) ∧
    (∃ l, suggest_utm_zone 25 10 = .ok l ∧
      (l.length = 2 ↔ (hemisphereOf 10 = "N" ∧
        (zoneNumber 25 = 35 ∨ zoneNumber 25 = 36 ∨ zoneNumber 25 = 37))) ∧
      (l.length = 1 ∨ l.length = 2) ∧
      (∀ s1 s2, l = [s1, s2] →
        s1.datum = "WGS 84" ∧ s2.datum = "Adindan" ∧ s2.zone = s1.zone ∧
        s2.hemisphere = s1.hemisphere ∧ s2.epsg = 20100 + s2.zone)) :=
  ⟨⟨⟨by norm_num, by norm_num⟩, ⟨by norm_num, by norm_num⟩⟩,
    C4_adindan_legacy.1 25 10 ⟨by norm_num, by norm_num⟩ ⟨by norm_num, by norm_num⟩⟩

/-- C5: `suggest_utm_zone` errors exactly on out-of-range inputs, the error
value carries the offending parameter (longitude or latitude) whose message
names that parameter and its valid range, and the concrete call (200, 15)
errors on longitude. -/
theorem C5_range_errors :
    (∀ lon lat : ℚ, (∃ e, suggest_utm_zone lon lat = .error e) ↔
      (¬(-180 ≤ lon ∧ lon ≤ 180) ∨ ¬(-90 ≤ lat ∧ lat ≤ 90))) ∧
    (∀ lon lat : ℚ, ¬(-180 ≤ lon ∧ lon ≤ 180) →
      suggest_utm_zone lon lat = .error (.lonOutOfRange lon)) ∧
    (∀ lon lat : ℚ, (-180 ≤ lon ∧ lon ≤ 180) → ¬(-90 ≤ lat ∧ lat ≤ 90) →
      suggest_utm_zone lon lat = .error (.latOutOfRange lat)) ∧
    (CRSQueryError.lonOutOfRange 200).message =
      "Longitude 200 out of range [-180, 180]" ∧
    suggest_utm_zone 200 15 = .error (.lonOutOfRange 200) := by
  have herr1 : ∀ lon lat : ℚ, ¬(-180 ≤ lon ∧ lon ≤ 180) →
      suggest_utm_zone lon lat = .error (.lonOutOfRange lon) := by
    intro lon lat h
    rw [suggest_utm_zone, if_pos h]
  have herr2 : ∀ lon lat : ℚ, (-180 ≤ lon ∧ lon ≤ 180) → ¬(-90 ≤ lat ∧ lat ≤ 90) →
      suggest_utm_zone lon lat = .error (.latOutOfRange lat) := by
    intro lon lat h1 h2
    rw [suggest_utm_zone, if_neg (not_not_intro h1), if_pos h2]
  refine ⟨?_, herr1, herr2, ?_, ?_⟩
  · intro lon lat
    constructor
    · rintro ⟨e, he⟩
      by_contra hc
      push_neg at hc
      rcases suggest_eq_cases lon lat hc.1 hc.2 with ⟨_, _, _, heq⟩ | ⟨_, heq⟩ <;>
        { rw [heq] at he; exact absurd he (by simp) }
    · rintro (h | h)
      · exact ⟨_, herr1 lon lat h⟩
      · by_cases h1 : -180 ≤ lon ∧ lon ≤ 180
        · exact ⟨_, herr2 lon lat h1 h⟩
        · exact ⟨_, herr1 lon lat h1⟩
  · rfl
  · exact herr1 200 15 (by norm_num)

/-- C5 witness: the longitude-error branch applied at (200, -5). -/
theorem C5_witness :
    ¬((-180:ℚ) ≤ 200 ∧ (200:ℚ) ≤ 180) ∧
    suggest_utm_zone 200 (-5) = .error (.lonOutOfRange 200) :=
  ⟨by norm_num, C5_range_errors.2.1 200 (-5) (by norm_num)⟩

/-- C10: `get_preset` returns the unique preset whose epsg field equals the
queried code for each of the eight registry codes, and `none` for every
other integer code. -/
theorem C10_get_preset (code : ℤ) :
    ((code = 4326 ∨ code = 32634 ∨ code = 32635 ∨ code = 32636 ∨ code = 32637 ∨
      code = 20135 ∨ code = 20136 ∨ code = 20137) →
      ∃ p, get_preset code = some p ∧ p.epsg = code ∧ p ∈ SUDAN_CRS_PRESETS ∧
        ∀ q ∈ SUDAN_CRS_PRESETS, q.epsg = code → q = p) ∧
    (¬(code = 4326 ∨ code = 32634 ∨ code = 32635 ∨ code = 32636 ∨ code = 32637 ∨
      code = 20135 ∨ code = 20136 ∨ code = 20137) → get_preset code = none) := by
  constructor
  · rintro (rfl | rfl | rfl | rfl | rfl | rfl | rfl | rfl) <;>
      exact ⟨_, rfl, rfl, by decide, by decide⟩
  · intro h
    push_neg at h
    obtain ⟨h1, h2, h3, h4, h5, h6, h7, h8⟩ := h
    simp [get_preset, findPreset, SUDAN_CRS_PRESETS, Ne.symm h1, Ne.symm h2,
      Ne.symm h3, Ne.symm h4, Ne.symm h5, Ne.symm h6, Ne.symm h7, Ne.symm h8]

/-- C10 witness: the eight-code branch at 4326 and the `none` branch at 9999. -/
theorem C10_witness :
    (¬((9999:ℤ) = 4326 ∨ (9999:ℤ) = 32634 ∨ (9999:ℤ) = 32635 ∨ (9999:ℤ) = 32636 ∨
      (9999:ℤ) = 32637 ∨ (9999:ℤ) = 20135 ∨ (9999:ℤ) = 20136 ∨ (9999:ℤ) = 20137)) ∧
    get_preset 9999 = none :=
  ⟨by decide, (C10_get_preset 9999).2 (by decide)⟩

/-!
Terrain derivative calculator, embedded from `src/sudapy/raster/ops.py`.
Elevation grids are real-valued functions on row/column indices together
with an explicit shape `(R, C)`; floating point is idealised as `ℝ`.
-/

/-- One axis of `numpy.gradient` with uniform spacing `d` over `n` samples:
one-sided differences at the two edges, central differences inside. -/
noncomputable def gradAlong (n : ℕ) (d : ℝ) (f : ℕ → ℝ) (i : ℕ) : ℝ :=
  if i = 0 then (f 1 - f 0) / d
  else if i = n - 1 then (f (n - 1) - f (n - 2)) / d
  else (f (i + 1) - f (i - 1)) / (2 * d)

/-- `numpy.gradient(dem, dy, dx)` on a 2-D array of shape `(R, C)`: errors
when an axis has fewer than 2 samples, otherwise returns
`(grad_y, grad_x)`. -/
noncomputable def npGradient2D (R C : ℕ) (dem : ℕ → ℕ → ℝ) (dy dx : ℝ) :
    Except String ((ℕ → ℕ → ℝ) × (ℕ → ℕ → ℝ)) :=
  if R < 2 ∨ C < 2 then
    .error "Shape of array too small to calculate a numerical gradient, at least (edge_order + 1) elements are required."
  else
    .ok (fun i j => gradAlong R dy (fun k => dem k j) i,
         fun i j => gradAlong C dx (fun k => dem i k) j)

/-- `numpy.radians`: degrees to radians. -/
noncomputable def toRadians (x : ℝ) : ℝ := x * (Real.pi / 180)

/-- `numpy.degrees`: radians to degrees. -/
noncomputable def toDegrees (x : ℝ) : ℝ := x * (180 / Real.pi)

/-- `numpy.arctan2 y x`: the angle of the point `(x, y)`, in `(-pi, pi]`. -/
noncomputable def atan2 (y x : ℝ) : ℝ :=
  if 0 < x then Real.arctan (y / x)
  else if x < 0 then
    (if 0 ≤ y then Real.arctan (y / x) + Real.pi else Real.arctan (y / x) - Real.pi)
  else if 0 < y then Real.pi / 2
  else if y < 0 then -(Real.pi / 2)
  else 0

/-- Embedding of `_compute_slope` of `ops.py`: slope in degrees from the
numpy gradient. -/
noncomputable def compute_slope (R C : ℕ) (dem : ℕ → ℕ → ℝ) (dx dy : ℝ) :
    Except String (ℕ → ℕ → ℝ) :=
  match npGradient2D R C dem dy dx with
  | .error e => .error e
  | .ok (grad_y, grad_x) =>
      .ok fun i j =>
        toDegrees (Real.arctan (Real.sqrt ((grad_x i j) ^ 2 + (grad_y i j) ^ 2)))

/-- Embedding of `_compute_hillshade` of `ops.py`: illumination values in
[0, 255] from the numpy gradient, sun azimuth and sun altitude. -/
noncomputable def compute_hillshade (R C : ℕ) (dem : ℕ → ℕ → ℝ)
    (dx dy azimuth altitude : ℝ) : Except String (ℕ → ℕ → ℝ) :=
  let az_rad := toRadians (360 - azimuth + 90)
  let alt_rad := toRadians altitude
  match npGradient2D R C dem dy dx with
  | .error e => .error e
  | .ok (grad_y, grad_x) =>
      .ok fun i j =>
        let slope_rad := Real.arctan (Real.sqrt ((grad_x i j) ^ 2 + (grad_y i j) ^ 2))
        let aspect_rad := atan2 (-(grad_y i j)) (grad_x i j)
        let hs := Real.sin alt_rad * Real.cos slope_rad +
          Real.cos alt_rad * Real.sin slope_rad * Real.cos (az_rad - aspect_rad)
        min (max hs 0) 1 * 255

/-- C2 counterexample: on a well-shaped 2 by 2 grid with `dx = -1 ≤ 0` both
terrain functions succeed, contradicting the claim that non-positive cell
spacing fails with an InvalidInput error. -/
theorem C2_counterexample :
    (compute_slope 2 2 (fun _ _ => 0) (-1) 1).isOk = true ∧
    (compute_hillshade 2 2 (fun _ _ => 0) (-1) 1 315 45).isOk = true := by
  constructor
  · rw [compute_slope, npGradient2D, if_neg (by omega : ¬((2:ℕ) < 2 ∨ (2:ℕ) < 2))]
    rfl
  · rw [compute_hillshade, npGradient2D, if_neg (by omega : ¬((2:ℕ) < 2 ∨ (2:ℕ) < 2))]
    rfl

/-- C2 (amended): `compute_slope` and `compute_hillshade` fail — with the
gradient shape error, the only error either raises — exactly when the grid
has fewer than 2 rows or fewer than 2 columns; non-positive `dx` or `dy` is
not validated and raises no error. -/
theorem C2_error_conditions (R C : ℕ) (dem : ℕ → ℕ → ℝ)
    (dx dy azimuth altitude : ℝ) :
    ((∃ e, compute_slope R C dem dx dy = .error e) ↔ (R < 2 ∨ C < 2)) ∧
    ((∃ e, compute_hillshade R C dem dx dy azimuth altitude = .error e) ↔
      (R < 2 ∨ C < 2)) := by
  by_cases hshape : R < 2 ∨ C < 2
  · constructor
    · exact ⟨fun _ => hshape, fun _ =>
        ⟨_, by rw [compute_slope, npGradient2D, if_pos hshape]⟩⟩
    · exact ⟨fun _ => hshape, fun _ =>
        ⟨_, by rw [compute_hillshade, npGradient2D, if_pos hshape]⟩⟩
  · constructor
    · refine ⟨fun ⟨e, he⟩ => ?_, fun h => absurd h hshape⟩
      rw [compute_slope, npGradient2D, if_neg hshape] at he
      exact absurd he (by simp)
    · refine ⟨fun ⟨e, he⟩ => ?_, fun h => absurd h hshape⟩
      rw [compute_hillshade, npGradient2D, if_neg hshape] at he
      exact absurd he (by simp)

/-- C2 witness: a 1-row grid makes `compute_slope` fail, by the amended
error condition applied at shape (1, 5). -/
theorem C2_witness :
    ∃ e, compute_slope 1 5 (fun _ _ => (0:ℝ)) 1 1 = .error e :=
  (C2_error_conditions 1 5 (fun _ _ => 0) 1 1 315 45).1.mpr (by omega)

/-- From the words of the spec: central-difference gradient along the x
axis (columns) scaled by `dx`, with one-sided differences at the first and
last column. -/
noncomputable def specGradX (C : ℕ) (dx : ℝ) (dem : ℕ → ℕ → ℝ) (i j : ℕ) : ℝ :=
  if j = 0 then (dem i 1 - dem i 0) / dx
  else if j = C - 1 then (dem i (C - 1) - dem i (C - 2)) / dx
  else (dem i (j + 1) - dem i (j - 1)) / (2 * dx)

/-- From the words of the spec: central-difference gradient along the y
axis (rows) scaled by `dy`, with one-sided differences at the first and
last row. -/
noncomputable def specGradY (R : ℕ) (dy : ℝ) (dem : ℕ → ℕ → ℝ) (i j : ℕ) : ℝ :=
  if i = 0 then (dem 1 j - dem 0 j) / dy
  else if i = R - 1 then (dem (R - 1) j - dem (R - 2) j) / dy
  else (dem (i + 1) j - dem (i - 1) j) / (2 * dy)

/-- From the words of the spec: per-cell slope in degrees,
`arctan(sqrt(grad_x^2 + grad_y^2))` converted from radians to degrees. -/
noncomputable def specSlopeCell (R C : ℕ) (dem : ℕ → ℕ → ℝ) (dx dy : ℝ)
    (i j : ℕ) : ℝ :=
  toDegrees (Real.arctan (Real.sqrt
    ((specGradX C dx dem i j) ^ 2 + (specGradY R dy dem i j) ^ 2)))

/-- From the words of the spec: per-cell hillshade,
`sin(alt)·cos(slope) + cos(alt)·sin(slope)·cos(az − aspect)` with
`aspect = atan2(-grad_y, grad_x)` and `az = radians(360 − azimuth + 90)`,
clipped to [0, 1] and scaled by 255. -/
noncomputable def specHillshadeCell (R C : ℕ) (dem : ℕ → ℕ → ℝ)
    (dx dy azimuth altitude : ℝ) (i j : ℕ) : ℝ :=
  min (max (Real.sin (toRadians altitude) *
      Real.cos (Real.arctan (Real.sqrt
        ((specGradX C dx dem i j) ^ 2 + (specGradY R dy dem i j) ^ 2))) +
    Real.cos (toRadians altitude) *
      Real.sin (Real.arctan (Real.sqrt
        ((specGradX C dx dem i j) ^ 2 + (specGradY R dy dem i j) ^ 2))) *
      Real.cos (toRadians (360 - azimuth + 90) -
        atan2 (-(specGradY R dy dem i j)) (specGradX C dx dem i j))) 0) 1 * 255

/-- The arctangent of a nonnegative number is nonnegative. -/
theorem arctan_nonneg_of_nonneg {x : ℝ} (h : 0 ≤ x) : 0 ≤ Real.arctan x := by
  have := Real.arctan_strictMono.monotone h
  rwa [Real.arctan_zero] at this

/-- Degrees of an angle in [0, pi/2) lie in [0, 90). -/
theorem toDegrees_lt_90 {x : ℝ} (h : x < Real.pi / 2) : toDegrees x < 90 := by
  have hπ : 0 < Real.pi := Real.pi_pos
  rw [toDegrees]
  calc x * (180 / Real.pi) < (Real.pi / 2) * (180 / Real.pi) := by
        apply mul_lt_mul_of_pos_right h
        positivity
    _ = 90 := by field_simp; ring

/-- C6: for every well-shaped grid and positive spacings, `compute_slope`
succeeds and equals, per cell, the arctangent of the gradient magnitude
converted to degrees (central differences inside, one-sided at the edges),
and every cell value lies in [0, 90). -/
theorem C6_slope_formula (R C : ℕ) (dem : ℕ → ℕ → ℝ) (dx dy : ℝ)
    (hR : 2 ≤ R) (hC : 2 ≤ C) (hdx : 0 < dx) (hdy : 0 < dy) :
    ∃ g, compute_slope R C dem dx dy = .ok g ∧
      ∀ i j, g i j = specSlopeCell R C dem dx dy i j ∧
        0 ≤ g i j ∧ g i j < 90 := by
  refine ⟨_, by rw [compute_slope, npGradient2D, if_neg (by omega)], fun i j => ?_⟩
  refine ⟨rfl, ?_, ?_⟩
  · exact mul_nonneg (arctan_nonneg_of_nonneg (Real.sqrt_nonneg _))
      (by positivity)
  · exact toDegrees_lt_90 (Real.arctan_lt_pi_div_two _)

/-- C6 witness: the slope statement instantiated on the 2 by 2 zero grid
with unit spacing. -/
theorem C6_witness :
    ((2:ℕ) ≤ 2 ∧ (0:ℝ) < 1) ∧
    (∃ g, compute_slope 2 2 (fun _ _ => (0:ℝ)) 1 1 = .ok g ∧
      ∀ i j, g i j = specSlopeCell 2 2 (fun _ _ => (0:ℝ)) 1 1 i j ∧
        0 ≤ g i j ∧ g i j < 90) :=
  ⟨⟨le_refl 2, by norm_num⟩,
    C6_slope_formula 2 2 (fun _ _ => 0) 1 1 (le_refl 2) (le_refl 2)
      (by norm_num) (by norm_num)⟩

/-- C7: for every well-shaped grid, spacings, azimuth and altitude,
`compute_hillshade` succeeds and equals, per cell, the spec formula
`sin(alt)·cos(slope) + cos(alt)·sin(slope)·cos(az − aspect)` with
`aspect = atan2(-grad_y, grad_x)` and `az = radians(360 − azimuth + 90)`,
clipped to [0, 1] and scaled by 255. -/
theorem C7_hillshade_formula (R C : ℕ) (dem : ℕ → ℕ → ℝ)
    (dx dy azimuth altitude : ℝ) (hR : 2 ≤ R) (hC : 2 ≤ C) :
    ∃ g, compute_hillshade R C dem dx dy azimuth altitude = .ok g ∧
      ∀ i j, g i j = specHillshadeCell R C dem dx dy azimuth altitude i j := by
  refine ⟨_, by rw [compute_hillshade, npGradient2D, if_neg (by omega)],
    fun i j => ?_⟩
  rfl

/-- C7 witness: the hillshade statement instantiated on the 2 by 2 zero
grid with unit spacing and the default sun position. -/
theorem C7_witness :
    ((2:ℕ) ≤ 2 ∧ (2:ℕ) ≤ 2) ∧
    (∃ g, compute_hillshade 2 2 (fun _ _ => (0:ℝ)) 1 1 315 45 = .ok g ∧
      ∀ i j, g i j = specHillshadeCell 2 2 (fun _ _ => (0:ℝ)) 1 1 315 45 i j) :=
  ⟨⟨le_refl 2, le_refl 2⟩,
    C7_hillshade_formula 2 2 (fun _ _ => 0) 1 1 315 45 (le_refl 2) (le_refl 2)⟩

/-- The numpy gradient of a constant sequence is zero in every cell. -/
theorem gradAlong_const (n : ℕ) (d : ℝ) (f : ℕ → ℝ) (c : ℝ)
    (hf : ∀ k, f k = c) (i : ℕ) : gradAlong n d f i = 0 := by
  rw [gradAlong]
  split_ifs <;> simp [hf]

/-- C8: on a constant grid of valid shape with positive spacings and valid
sun position, `compute_slope` is identically zero and `compute_hillshade`
is uniformly `sin(altitude_rad) * 255`. -/
theorem C8_flat_terrain (R C : ℕ) (dem : ℕ → ℕ → ℝ) (c dx dy azimuth altitude : ℝ)
    (hconst : ∀ i j, dem i j = c) (hR : 2 ≤ R) (hC : 2 ≤ C)
    (hdx : 0 < dx) (hdy : 0 < dy) (haz : 0 ≤ azimuth ∧ azimuth ≤ 360)
    (halt : 0 ≤ altitude ∧ altitude ≤ 90) :
    (∃ g, compute_slope R C dem dx dy = .ok g ∧ ∀ i j, g i j = 0) ∧
    (∃ g, compute_hillshade R C dem dx dy azimuth altitude = .ok g ∧
      ∀ i j, g i j = Real.sin (toRadians altitude) * 255) := by
  have hgx : ∀ i j, gradAlong C dx (fun k => dem i k) j = 0 :=
    fun i j => gradAlong_const C dx _ c (fun k => hconst i k) j
  have hgy : ∀ i j, gradAlong R dy (fun k => dem k j) i = 0 :=
    fun i j => gradAlong_const R dy _ c (fun k => hconst k j) i
  have hsin0 : 0 ≤ Real.sin (toRadians altitude) := by
    apply Real.sin_nonneg_of_nonneg_of_le_pi
    · rw [toRadians]
      exact mul_nonneg halt.1 (by positivity)
    · rw [toRadians]
      calc altitude * (Real.pi / 180) ≤ 90 * (Real.pi / 180) := by
            apply mul_le_mul_of_nonneg_right halt.2
            positivity
        _ = Real.pi / 2 := by ring
        _ ≤ Real.pi := by linarith [Real.pi_pos]
  have hsin1 : Real.sin (toRadians altitude) ≤ 1 := Real.sin_le_one _
  constructor
  · refine ⟨_, by rw [compute_slope, npGradient2D, if_neg (by omega)], fun i j => ?_⟩
    dsimp only
    rw [hgx, hgy]
    norm_num [Real.arctan_zero, toDegrees]
  · refine ⟨_, by rw [compute_hillshade, npGradient2D, if_neg (by omega)],
      fun i j => ?_⟩
    dsimp only
    rw [hgx, hgy]
    norm_num [Real.arctan_zero, Real.cos_zero, Real.sin_zero]
    rw [max_eq_left hsin0, min_eq_left hsin1]

/-- C8 witness: the flat-terrain statement instantiated on the constant
zero 2 by 2 grid with unit spacing and the default sun position. -/
theorem C8_witness :
    ((∀ i j : ℕ, (fun _ _ => (0:ℝ)) i j = 0) ∧ (0:ℝ) < 1 ∧
      ((0:ℝ) ≤ 45 ∧ (45:ℝ) ≤ 90)) ∧
    ((∃ g, compute_slope 2 2 (fun _ _ => (0:ℝ)) 1 1 = .ok g ∧ ∀ i j, g i j = 0) ∧
      (∃ g, compute_hillshade 2 2 (fun _ _ => (0:ℝ)) 1 1 315 45 = .ok g ∧
        ∀ i j, g i j = Real.sin (toRadians 45) * 255)) :=
  ⟨⟨fun _ _ => rfl, by norm_num, by norm_num, by norm_num⟩,
    C8_flat_terrain 2 2 (fun _ _ => 0) 0 1 1 315 45 (fun _ _ => rfl)
      (le_refl 2) (le_refl 2) (by norm_num) (by norm_num)
      ⟨by norm_num, by norm_num⟩ ⟨by norm_num, by norm_num⟩⟩

/-- C9: for every well-shaped finite grid, positive spacings and valid sun
position, every cell of the hillshade lies in [0, 255]. -/
theorem C9_hillshade_range (R C : ℕ) (dem : ℕ → ℕ → ℝ)
    (dx dy azimuth altitude : ℝ) (hR : 2 ≤ R) (hC : 2 ≤ C)
    (hdx : 0 < dx) (hdy : 0 < dy) (haz : 0 ≤ azimuth ∧ azimuth ≤ 360)
    (halt : 0 ≤ altitude ∧ altitude ≤ 90) :
    ∃ g, compute_hillshade R C dem dx dy azimuth altitude = .ok g ∧
      ∀ i j, 0 ≤ g i j ∧ g i j ≤ 255 := by
  refine ⟨_, by rw [compute_hillshade, npGradient2D, if_neg (by omega)],
    fun i j => ?_⟩
  dsimp only
  constructor
  · exact mul_nonneg (le_min (le_max_right _ _) zero_le_one) (by norm_num)
  · exact le_trans
      (mul_le_mul_of_nonneg_right (min_le_right _ _) (by norm_num))
      (by norm_num)

/-- C9 witness: the range statement instantiated on the 2 by 2 zero grid
with unit spacing and the default sun position. -/
theorem C9_witness :
    ((0:ℝ) < 1 ∧ ((0:ℝ) ≤ 315 ∧ (315:ℝ) ≤ 360) ∧ ((0:ℝ) ≤ 45 ∧ (45:ℝ) ≤ 90)) ∧
    (∃ g, compute_hillshade 2 2 (fun _ _ => (0:ℝ)) 1 1 315 45 = .ok g ∧
      ∀ i j, 0 ≤ g i j ∧ g i j ≤ 255) :=
  ⟨⟨by norm_num, ⟨by norm_num, by norm_num⟩, ⟨by norm_num, by norm_num⟩⟩,
    C9_hillshade_range 2 2 (fun _ _ => 0) 1 1 315 45 (le_refl 2) (le_refl 2)
      (by norm_num) (by norm_num) ⟨by norm_num, by norm_num⟩
      ⟨by norm_num, by norm_num⟩⟩
